import Mathlib

/-!
Verification of the xbridge_witness core against its specification.

The development shallowly embeds the C++ sources:
  - src/xbwd/client/ChainListener.cpp   (message classification, processMessage, onMessage)
  - src/xbwd/rpc/RPCHandler.cpp         (doWitness, doWitnessAccountCreate)
  - src/xbwd/rpc/fromJSON.h             (fromJson specializations, optFromJson)
  - src/xbwd/federator/FederatorEvents.h (event variants)

JSON values are modelled by the inductive JVal below; the accessors
(member, get, asBool, asInt, asUInt, asString, isIntegral, isNull, isString)
embed the semantics of the Json::Value library used by the sources
(rippled's jsoncpp fork).  Conversions that throw in C++ are modelled by
Option / Except results.  External ripple parsers (base58 accounts, STAmount,
STXChainBridge, uint256.parseHex) are modelled by executable abstractions
that preserve exactly the success/failure structure the sources rely on.
-/

/-- The JSON value model: null, bool, int, uint, string and object values.
Arrays and reals do not occur in the code paths under verification and are
omitted. -/
inductive JVal where
  | jNull : JVal
  | jBool : Bool → JVal
  | jInt : Int → JVal
  | jUInt : Nat → JVal
  | jStr : String → JVal
  | jObj : List (String × JVal) → JVal

/-- Json::Value::isMember: true when the value is an object holding the key. -/
def JVal.member : JVal → String → Bool
  | .jObj fs, k => (fs.find? (fun p => p.1 == k)).isSome
  | _, _ => false

/-- Json::Value const operator[]: field lookup, null when absent (the code
only indexes object- or null-valued nodes). -/
def JVal.get : JVal → String → JVal
  | .jObj fs, k =>
    match fs.find? (fun p => p.1 == k) with
    | some p => p.2
    | none => .jNull
  | _, _ => .jNull

/-- Json::Value::isNull. -/
def JVal.isNull : JVal → Bool
  | .jNull => true
  | _ => false

/-- Json::Value::isString. -/
def JVal.isString : JVal → Bool
  | .jStr _ => true
  | _ => false

/-- Json::Value::isIntegral: int, uint or bool typed values. -/
def JVal.isIntegral : JVal → Bool
  | .jInt _ => true
  | .jUInt _ => true
  | .jBool _ => true
  | _ => false

/-- Json::Value::asBool of the rippled Json library; object values are not
convertible and throw, modelled as an error. -/
def asBoolE : JVal → Except Unit Bool
  | .jNull => .ok false
  | .jBool b => .ok b
  | .jInt i => .ok (i != 0)
  | .jUInt n => .ok (n != 0)
  | .jStr s => .ok (s != "")
  | .jObj _ => .error ()

/-- Strict full-string decimal parse of an unsigned value (the semantics of
beast::lexicalCast and String.toNat?): non-empty, digits only. -/
def decNat (s : String) : Option Nat :=
  if s.isEmpty then none
  else
    s.data.foldl
      (fun acc c =>
        match acc, (if c.isDigit then some (c.toNat - 48) else none) with
        | some a, some d => some (a * 10 + d)
        | _, _ => none)
      (some 0)

/-- Strict full-string decimal parse of a signed value: an optional leading
minus sign followed by a non-empty digit string. -/
def decInt (s : String) : Option Int :=
  match s.data with
  | '-' :: rest =>
    (decNat (String.mk rest)).map (fun n => -(Int.ofNat n))
  | _ => (decNat s).map Int.ofNat

/-- Json::Value::asInt: identity on 32-bit ints, bounded uints, strict decimal
parse (lexicalCast) for strings; anything else throws. -/
def asIntE : JVal → Except Unit Int
  | .jNull => .ok 0
  | .jBool b => .ok (if b then 1 else 0)
  | .jInt i => .ok i
  | .jUInt n => if n < 2 ^ 31 then .ok (Int.ofNat n) else .error ()
  | .jStr s =>
    match decInt s with
    | some i => if -(2 ^ 31) ≤ i ∧ i < 2 ^ 31 then .ok i else .error ()
    | none => .error ()
  | .jObj _ => .error ()

/-- Json::Value::asUInt (Json::UInt is the 32-bit unsigned int type):
null is 0, bools are 0/1, non-negative ints pass through, strings are parsed
as strict decimal (lexicalCast); failures throw, modelled as none. -/
def asUIntT : JVal → Option Nat
  | .jNull => some 0
  | .jBool b => some (if b then 1 else 0)
  | .jInt i => if 0 ≤ i ∧ i < 2 ^ 32 then some i.toNat else none
  | .jUInt n => some (n % 2 ^ 32)
  | .jStr s =>
    match decNat s with
    | some n => if n < 2 ^ 32 then some n else none
    | none => none
  | .jObj _ => none

/-- Json::Value::asString: null converts to the empty string, strings pass
through, bools print; numeric and object values throw, modelled as none. -/
def asStringT : JVal → Option String
  | .jNull => some ""
  | .jStr s => some s
  | .jBool b => some (if b then "true" else "false")
  | _ => none

/-- One hexadecimal digit value. -/
def hexDigitVal (c : Char) : Option Nat :=
  if c.isDigit then some (c.toNat - 48)
  else if 'a' ≤ c ∧ c ≤ 'f' then some (c.toNat - 87)
  else if 'A' ≤ c ∧ c ≤ 'F' then some (c.toNat - 55)
  else none

/-- Full-string hexadecimal parse (std::from_chars with base 16 consuming the
whole string): fails on the empty string or any non-hex character. -/
def hexVal (s : String) : Option Nat :=
  if s.isEmpty then none
  else
    s.data.foldl
      (fun acc c =>
        match acc, hexDigitVal c with
        | some a, some d => some (a * 16 + d)
        | _, _ => none)
      (some 0)

/-- std::from_chars into a uint64_t with base 16: full-string hex parse with
an out-of-range failure above 2^64 - 1. -/
def hexParseU64 (s : String) : Option Nat :=
  match hexVal s with
  | some n => if n < 2 ^ 64 then some n else none
  | none => none

/-- Abstraction of ripple::parseBase58 for AccountID values: accepts the
well-formed base58 account shapes (r-prefixed, classic length range) and is
the identity on them; anything else fails.  AccountID is modelled by the
accepted string. -/
def parseBase58Account (s : String) : Option String :=
  if (match s.data with | c :: _ => c == 'r' | [] => false) &&
     25 ≤ s.length && s.length ≤ 35 then some s else none

/-- Abstraction of ripple::amountFromJson restricted to the amount shapes
exercised by the bridge code (XRP drops as a JSON number or decimal string).
Unparseable values throw in C++, modelled as none at the call sites. -/
def amountFromJson : JVal → Option Int
  | .jUInt n => some (Int.ofNat n)
  | .jInt i => if 0 ≤ i then some i else none
  | .jStr s =>
    match decNat s with
    | some n => some (Int.ofNat n)
    | none => none
  | _ => none

/-- ripple::STXChainBridge, the bridge identity: two door accounts and two
issues (modelled by their currency codes). -/
structure STXChainBridge where
  lockingChainDoor : String
  lockingChainIssue : String
  issuingChainDoor : String
  issuingChainIssue : String
deriving DecidableEq, Repr

/-- One issue sub-object of a bridge JSON object: its currency code. -/
def parseIssue (v : JVal) : Option String :=
  match v.get "currency" with
  | .jStr s => if s != "" then some s else none
  | _ => none

/-- The STXChainBridge JSON constructor (throws on malformed input in C++,
modelled as none). -/
def parseBridgeJson (v : JVal) : Option STXChainBridge :=
  match asStringT (v.get "LockingChainDoor") with
  | none => none
  | some lds =>
    match parseBase58Account lds with
    | none => none
    | some ld =>
      match parseIssue (v.get "LockingChainIssue") with
      | none => none
      | some li =>
        match asStringT (v.get "IssuingChainDoor") with
        | none => none
        | some ids =>
          match parseBase58Account ids with
          | none => none
          | some idd =>
            match parseIssue (v.get "IssuingChainIssue") with
            | none => none
            | some ii => some ⟨ld, li, idd, ii⟩

/-- Decidable equality of Except results, used to evaluate the model on
concrete inputs. -/
instance exceptDecEq {e : Type} {a : Type} [DecidableEq e] [DecidableEq a] :
    DecidableEq (Except e a) := fun x y =>
  match x, y with
  | .ok u, .ok v =>
    if h : u = v then isTrue (by rw [h]) else isFalse (fun hh => h (Except.ok.inj hh))
  | .error u, .error v =>
    if h : u = v then isTrue (by rw [h]) else isFalse (fun hh => h (Except.error.inj hh))
  | .ok _, .error _ => isFalse (fun hh => Except.noConfusion hh)
  | .error _, .ok _ => isFalse (fun hh => Except.noConfusion hh)

/-- Direction of a cross-chain transfer (FederatorEvents.h, enum class Dir). -/
inductive Dir where
  | issuingToLocking : Dir
  | lockingToIssuing : Dir
deriving DecidableEq, Repr

/-- event::XChainCommitDetected (FederatorEvents.h). -/
structure XChainCommitDetected where
  dir : Dir
  src : String
  bridge : STXChainBridge
  deliveredAmt : Option Int
  claimID : Nat
  otherChainAccount : Option String
  ledgerSeq : Nat
  txnHash : String
  status : Int
  rpcOrder : Int
deriving DecidableEq, Repr

/-- event::XChainAccountCreateCommitDetected (FederatorEvents.h). -/
structure XChainAccountCreateCommitDetected where
  dir : Dir
  src : String
  bridge : STXChainBridge
  deliveredAmt : Option Int
  rewardAmt : Int
  createCount : Nat
  otherChainAccount : String
  ledgerSeq : Nat
  txnHash : String
  status : Int
  rpcOrder : Int
deriving DecidableEq, Repr

/-- event::XChainTransferResult (FederatorEvents.h). -/
structure XChainTransferResult where
  dir : Dir
  dst : String
  deliveredAmt : Option Int
  claimID : Nat
  ledgerSeq : Nat
  txnHash : String
  ter : Int
  rpcOrder : Int
deriving DecidableEq, Repr

/-- FederatorEvent, the variant pushed to the federator queue
(FederatorEvents.h); HeartbeatTimer carries no data. -/
inductive FederatorEvent where
  | commit : XChainCommitDetected → FederatorEvent
  | accountCreate : XChainAccountCreateCommitDetected → FederatorEvent
  | heartbeat : FederatorEvent
  | transferResult : XChainTransferResult → FederatorEvent
deriving DecidableEq, Repr

/-- The deliveredAmt field of a produced event, when the variant has one. -/
def FederatorEvent.deliveredAmtField : FederatorEvent → Option (Option Int)
  | .commit ev => some ev.deliveredAmt
  | .accountCreate ev => some ev.deliveredAmt
  | .transferResult ev => some ev.deliveredAmt
  | .heartbeat => none

/-- The fieldMatchesStr lambda of ChainListener::processMessage: the field is
present, string typed and equal to the expected literal. -/
def fieldMatchesStr (val : JVal) (field toMatch : String) : Bool :=
  if val.member field = false then false
  else
    match val.get field with
    | .jStr s => s == toMatch
    | _ => false

/-- The txnBridge lambda of processMessage (ChainListener.cpp lines 265-280):
requires the top-level message to carry an XChainBridge member, then parses
the bridge from the transaction sub-object; parse failures are caught and
give nullopt. -/
def txnBridgeOf (msg : JVal) : Option STXChainBridge :=
  if msg.member "XChainBridge" then
    if msg.member "transaction" = false then none
    else parseBridgeJson ((msg.get "transaction").get "XChainBridge")
  else none

/-- The three bridge transaction types recognized by the listener. -/
inductive TxnType where
  | xChainCommit : TxnType
  | xChainClaim : TxnType
  | xChainCreateAccount : TxnType
deriving DecidableEq, Repr

/-- The txnTypeOpt lambda of processMessage (ChainListener.cpp lines 282-349):
classification of the message, requiring type == transaction, one of the
three bridge TransactionTypes, a parseable embedded bridge and equality with
the configured bridge. -/
def txnTypeOf (bridge : STXChainBridge) (msg : JVal) : Option TxnType :=
  if fieldMatchesStr msg "type" "transaction" = false then none
  else if msg.member "transaction" = false then none
  else
    let txn := msg.get "transaction"
    let isXChainCommit := fieldMatchesStr txn "TransactionType" "XChainCommit"
    let isXChainClaim :=
      !isXChainCommit && fieldMatchesStr txn "TransactionType" "XChainClaim"
    let isXChainCreateAccount := !isXChainCommit && !isXChainClaim &&
      fieldMatchesStr txn "TransactionType" "SidechainXChainAccountCreate"
    if !isXChainCommit && !isXChainClaim && !isXChainCreateAccount then none
    else
      match txnBridgeOf msg with
      | none => none
      | some tb =>
        if tb ≠ bridge then none
        else if isXChainClaim then some .xChainClaim
        else if isXChainCommit then some .xChainCommit
        else if isXChainCreateAccount then some .xChainCreateAccount
        else none

/-- The txnHash lambda (lines 362-376): asString of transaction.hash then
uint256.parseHex, all failures caught to nullopt.  The hash is modelled by
its 64-character hex string. -/
def txnHashOf (msg : JVal) : Option String :=
  match asStringT ((msg.get "transaction").get "hash") with
  | some s =>
    if s.length = 64 && s.data.all (fun c => (hexDigitVal c).isSome) then some s
    else none
  | none => none

/-- The txnSeq lambda (lines 388-400): transaction.Sequence.asUInt with
throws caught to nullopt. -/
def txnSeqOf (msg : JVal) : Option Nat :=
  asUIntT ((msg.get "transaction").get "Sequence")

/-- The lgrSeq lambda (lines 411-425): ledger_index.asUInt when the member is
present, throws caught to nullopt. -/
def lgrSeqOf (msg : JVal) : Option Nat :=
  if msg.member "ledger_index" then asUIntT (msg.get "ledger_index") else none

/-- deliveredAmt extraction (ChainListener.cpp lines 438-451).  When
meta.delivered_amount is present the code parses transaction.delivered_amount;
afterwards, whenever transaction.Amount is present, the value is overridden
with transaction.Amount (source TODO: for now override with amount).  The
amountFromJson calls are not guarded by try, so parse failures propagate as
exceptions, modelled by the error case. -/
def deliveredAmtOf (msg : JVal) : Except Unit (Option Int) :=
  let meta := msg.get "meta"
  let txn := msg.get "transaction"
  let step1 : Except Unit (Option Int) :=
    if meta.member "delivered_amount" then
      match amountFromJson (txn.get "delivered_amount") with
      | some a => .ok (some a)
      | none => .error ()
    else .ok none
  match step1 with
  | .error e => .error e
  | .ok d0 =>
    if txn.member "Amount" then
      match amountFromJson (txn.get "Amount") with
      | some a => .ok (some a)
      | none => .error ()
    else .ok d0

/-- The src lambda (lines 453-465): parseBase58 of transaction.Account's
string value, throws caught to nullopt. -/
def srcOf (msg : JVal) : Option String :=
  match asStringT ((msg.get "transaction").get "Account") with
  | some s => parseBase58Account s
  | none => none

/-- The dst lambda (lines 476-499): Destination for claim and create-account
transactions, OtherChainAccount for commits; throws caught to nullopt. -/
def dstOf (t : TxnType) (msg : JVal) : Option String :=
  let txn := msg.get "transaction"
  match t with
  | .xChainCreateAccount =>
    match asStringT (txn.get "Destination") with
    | some s => parseBase58Account s
    | none => none
  | .xChainClaim =>
    match asStringT (txn.get "Destination") with
    | some s => parseBase58Account s
    | none => none
  | .xChainCommit =>
    match asStringT (txn.get "OtherChainAccount") with
    | some s => parseBase58Account s
    | none => none

/-- Json::getOptional of a uint64 field (used for sfXChainClaimID): requires
a string value that fully parses as a 64-bit hex number; every failure is
caught to nullopt. -/
def getOptionalU64 (txn : JVal) (field : String) : Option Nat :=
  match txn.get field with
  | .jStr s => hexParseU64 s
  | _ => none

/-- The SignatureReward extraction in the create-account case
(lines 603-613): amountFromJson when the member is present (a parse failure
there would propagate as an exception), nullopt otherwise. -/
def rewardAmtOf (msg : JVal) : Except Unit (Option Int) :=
  if (msg.get "transaction").member "SignatureReward" then
    match amountFromJson ((msg.get "transaction").get "SignatureReward") with
    | some a => .ok (some a)
    | none => .error ()
  else .ok none

/-- The switch over the transaction type at the end of processMessage
(ChainListener.cpp lines 501-651).  In the create-account case the source
declares an empty optional createCount (TODO: Get create count from the
metadata, line 580-581), so that branch always returns before pushing an
event; the code after that guard is unreachable but is embedded faithfully. -/
def processSwitch (isMainchain : Bool) (msg : JVal) (txnType : TxnType)
    (ter idx : Int) (amt : Option Int) (sa h : String) (lg : Nat) :
    Except Unit (Option FederatorEvent) :=
  match txnType with
  | .xChainClaim =>
    match getOptionalU64 (msg.get "transaction") "XChainClaimID" with
    | none => .ok none
    | some c =>
      match dstOf .xChainClaim msg with
      | none => .ok none
      | some d =>
        .ok (some (.transferResult
          ⟨if isMainchain then .issuingToLocking else .lockingToIssuing,
           d, amt, c, lg, h, ter, idx⟩))
  | .xChainCommit =>
    match getOptionalU64 (msg.get "transaction") "XChainClaimID" with
    | none => .ok none
    | some c =>
      match txnBridgeOf msg with
      | none => .ok none
      | some tb =>
        .ok (some (.commit
          ⟨if isMainchain then .lockingToIssuing else .issuingToLocking,
           sa, tb, amt, c, dstOf .xChainCommit msg, lg, h, ter, idx⟩))
  | .xChainCreateAccount =>
    match (none : Option Nat) with
    | none => .ok none
    | some cc =>
      match txnBridgeOf msg with
      | none => .ok none
      | some tb =>
        match rewardAmtOf msg with
        | .error e => .error e
        | .ok none => .ok none
        | .ok (some ra) =>
          match dstOf .xChainCreateAccount msg with
          | none => .ok none
          | some d =>
            .ok (some (.accountCreate
              ⟨if isMainchain then .lockingToIssuing else .issuingToLocking,
               sa, tb, amt, ra, cc, d, lg, h, ter, idx⟩))

/-- ChainListener::processMessage (ChainListener.cpp lines 183-652).  The
result is ok none when the message is ignored, ok (some e) when the event e
is pushed to the federator, and error when an uncaught conversion exception
escapes (asBool of a non-convertible validated value, asInt of a
non-convertible result code or index, or an unguarded amountFromJson
failure). -/
def processMessage (isMainchain : Bool) (bridge : STXChainBridge) (msg : JVal) :
    Except Unit (Option FederatorEvent) :=
  if msg.member "validated" = false then .ok none
  else
    match asBoolE (msg.get "validated") with
    | .error e => .error e
    | .ok vb =>
      if vb = false then .ok none
      else if msg.member "engine_result_code" = false then .ok none
      else if msg.member "account_history_tx_index" = false then .ok none
      else if msg.member "meta" = false then .ok none
      else
        match asIntE (msg.get "engine_result_code") with
        | .error e => .error e
        | .ok ter =>
          match asIntE (msg.get "account_history_tx_index") with
          | .error e => .error e
          | .ok idx =>
            match txnTypeOf bridge msg with
            | none => .ok none
            | some txnType =>
              match txnHashOf msg with
              | none => .ok none
              | some h =>
                match txnSeqOf msg with
                | none => .ok none
                | some _sq =>
                  match lgrSeqOf msg with
                  | none => .ok none
                  | some lg =>
                    match deliveredAmtOf msg with
                    | .error e => .error e
                    | .ok amt =>
                      match srcOf msg with
                      | none => .ok none
                      | some sa =>
                        processSwitch isMainchain msg txnType ter idx amt sa h lg

/-! ## The query RPC layer (fromJSON.h and RPCHandler.cpp) -/

/-- The distinct exceptions thrown by fromJson of a uint64 (fromJSON.h lines
83-113): the missing-key error, the hex-parse error, the exception thrown by
Json::Value::asUInt itself (a lexicalCast failure), and the range error of
the final check against the uint64 maximum. -/
inductive U64Err where
  | expectedKey : U64Err
  | notHexParsable : U64Err
  | asUIntThrow : U64Err
  | tooLarge : U64Err
deriving DecidableEq, Repr

/-- fromJson of a uint64 (fromJSON.h lines 83-113): reject a missing key;
for string values validate the string as a full hexadecimal uint64 (throwing
when it does not parse); then return v.asUInt() — the hex value is discarded
— after checking the result against the uint64 maximum. -/
def fromJsonU64 (jv : JVal) (key : String) : Except U64Err Nat :=
  let v := jv.get key
  if v.isNull then .error .expectedKey
  else
    let hexCheck : Except U64Err Unit :=
      match v with
      | .jStr s =>
        match hexParseU64 s with
        | none => .error .notHexParsable
        | some _ => .ok ()
      | _ => .ok ()
    match hexCheck with
    | .error e => .error e
    | .ok _ =>
      match asUIntT v with
      | none => .error .asUIntThrow
      | some uInt =>
        if uInt > 2 ^ 64 - 1 then .error .tooLarge else .ok uInt

/-- optFromJson of a uint64: every exception is caught to nullopt. -/
def optFromJsonU64 (jv : JVal) (key : String) : Option Nat :=
  (fromJsonU64 jv key).toOption

/-- optFromJson of an AccountID (fromJSON.h lines 157-174 under the catch-all
of optFromJson): null key, a non-string value or a base58 failure give
nullopt. -/
def optFromJsonAccount (jv : JVal) (key : String) : Option String :=
  let v := jv.get key
  if v.isNull then none
  else
    match asStringT v with
    | some s => parseBase58Account s
    | none => none

/-- optFromJson of an STAmount (fromJSON.h lines 206-217 under the catch-all
of optFromJson). -/
def optFromJsonAmount (jv : JVal) (key : String) : Option Int :=
  let v := jv.get key
  if v.isNull then none else amountFromJson v

/-- optFromJson of an STXChainBridge (fromJSON.h lines 194-204 under the
catch-all of optFromJson). -/
def optFromJsonBridge (jv : JVal) (key : String) : Option STXChainBridge :=
  let v := jv.get key
  if v.isNull then none else parseBridgeJson v

/-- Blobs stored in and compared by the attestation DB: byte lists. -/
abbrev Blob := List Nat

/-- Canonical serialization of an account (ripple Serializer abstraction,
injective by construction). -/
def encodeAccount (a : String) : Blob :=
  0 :: a.data.map Char.toNat

/-- Canonical serialization of an amount. -/
def encodeAmount (a : Int) : Blob :=
  [1, if a < 0 then 1 else 0, a.natAbs]

/-- Canonical serialization of a bridge. -/
def encodeBridge (b : STXChainBridge) : Blob :=
  2 :: (encodeAccount b.lockingChainDoor ++ b.lockingChainIssue.data.map Char.toNat ++
        encodeAccount b.issuingChainDoor ++ b.issuingChainIssue.data.map Char.toNat)

/-- Inverse of encodeAccount used when a stored reward-account blob is
decoded back (the convert call of RPCHandler.cpp). -/
def decodeAccount (bl : Blob) : String :=
  match bl with
  | 0 :: cs => String.mk (cs.map Char.ofNat)
  | _ => ""

/-- One row of a claim-attestation table (§4.5 of the spec; the columns the
doWitness SELECT touches plus the stored signature material). -/
structure ClaimRow where
  claimID : Nat
  success : Bool
  deliveredAmt : Blob
  bridge : Blob
  sendingAccount : Blob
  otherChainAccount : Blob
  rewardAccount : Blob
  publicKey : Blob
  signature : Blob
deriving DecidableEq, Repr

/-- One row of a create-account attestation table. -/
structure CreateRow where
  createCount : Nat
  success : Bool
  deliveredAmt : Blob
  rewardAmt : Blob
  bridge : Blob
  sendingAccount : Blob
  otherChainAccount : Blob
  rewardAccount : Blob
  publicKey : Blob
  signature : Blob
deriving DecidableEq, Repr

/-- The four direction-specific attestation tables (§4.5). -/
structure WitnessDB where
  lockingToIssuingClaim : List ClaimRow
  issuingToLockingClaim : List ClaimRow
  createAccountLocking : List CreateRow
  createAccountIssuing : List CreateRow
deriving Repr

/-- ripple::AttestationBatch::AttestationClaim as reconstructed by doWitness. -/
structure AttestationClaim where
  signingPK : Blob
  signature : Blob
  sendingAccount : String
  sendingAmount : Int
  rewardAccount : String
  wasLockingChainSend : Bool
  claimID : Nat
  dst : Option String
deriving DecidableEq, Repr

/-- ripple::AttestationBatch::AttestationCreateAccount as reconstructed by
doWitnessAccountCreate. -/
structure AttestationCreateAccount where
  signingPK : Blob
  signature : Blob
  sendingAccount : String
  sendingAmount : Int
  rewardAmount : Int
  rewardAccount : String
  wasLockingChainSend : Bool
  createCount : Nat
  dst : String
deriving DecidableEq, Repr

/-- The observable outcome of a witness RPC handler: an error string as set
on result.error, a reconstructed single-attestation batch as set on
result.result.XChainAttestationBatch, or the undefined behavior of
dereferencing an empty optional (which doWitnessAccountCreate reaches when
create_count is missing, since its validation list never checks that
field). -/
inductive RpcResult where
  | err : String → RpcResult
  | claimBatch : STXChainBridge → AttestationClaim → RpcResult
  | createBatch : STXChainBridge → AttestationCreateAccount → RpcResult
  | ub : RpcResult
deriving DecidableEq, Repr

/-- The OtherChainAccount blob bound in the doWitness SELECT: the optional
destination's encoding when present, the untouched (empty) soci blob
otherwise. -/
def dstBlob : Option String → Blob
  | some d => encodeAccount d
  | none => []

/-- The full-key SELECT filter of doWitness (RPCHandler.cpp lines 128-137):
ClaimID, Success = 1, DeliveredAmt, Bridge, SendingAccount and
OtherChainAccount all equal to the request's encoded values. -/
def claimRowMatches (claimID : Nat) (amtBlob bridgeBlob saBlob ocaBlob : Blob)
    (r : ClaimRow) : Bool :=
  r.claimID == claimID && r.success && r.deliveredAmt == amtBlob &&
  r.bridge == bridgeBlob && r.sendingAccount == saBlob &&
  r.otherChainAccount == ocaBlob

/-- The missing-or-invalid-field computation of doWitness (RPCHandler.cpp
lines 55-69). -/
def witnessMissingField (req : JVal) : String :=
  if (optFromJsonBridge req "bridge").isNone then "bridge"
  else if (optFromJsonAmount req "sending_amount").isNone then "sending_amount"
  else if (optFromJsonU64 req "claim_id").isNone then "claim_id"
  else if (optFromJsonAccount req "door").isNone then "door"
  else if (optFromJsonAccount req "sending_account").isNone then "sending_account"
  else if (optFromJsonAccount req "reward_account").isNone then "reward_account"
  else ""

/-- doWitness (RPCHandler.cpp lines 41-174): parse the request fields, return
the missing-field error when one of the six checked fields fails, map the
door account to a direction (and its table), run the full-key SELECT with
Success = 1, and either reconstruct a single-claim attestation batch from the
first matching row or answer No such transaction.  A row is usable only when
its Signature, PublicKey and RewardAccount blobs are non-empty (an absent row
leaves the soci blobs empty). -/
def doWitness (db : WitnessDB) (req : JVal) : RpcResult :=
  let optBridge := optFromJsonBridge req "bridge"
  let optAmt := optFromJsonAmount req "sending_amount"
  let optClaimID := optFromJsonU64 req "claim_id"
  let optDoor := optFromJsonAccount req "door"
  let optSendingAccount := optFromJsonAccount req "sending_account"
  let optRewardAccount := optFromJsonAccount req "reward_account"
  let optDst := optFromJsonAccount req "destination"
  let missing := witnessMissingField req
  if missing ≠ "" then .err ("Missing or invalid field: " ++ missing)
  else
    match optBridge, optAmt, optClaimID, optDoor,
          optSendingAccount, optRewardAccount with
    | some bridge, some amt, some claimID, some door,
      some sendingAccount, some _rewardAccount =>
      let wasLockingChainSend : Bool := door == bridge.lockingChainDoor
      if !wasLockingChainSend && door != bridge.issuingChainDoor then
        .err "Specified door account does not match any sidechain door account."
      else
        let table := if wasLockingChainSend then db.lockingToIssuingClaim
                     else db.issuingToLockingClaim
        let amtBlob := encodeAmount amt
        let bridgeBlob := encodeBridge bridge
        let saBlob := encodeAccount sendingAccount
        let ocaBlob := dstBlob optDst
        match table.find? (claimRowMatches claimID amtBlob bridgeBlob saBlob ocaBlob) with
        | some r =>
          if r.signature ≠ [] ∧ r.publicKey ≠ [] ∧ r.rewardAccount ≠ [] then
            .claimBatch bridge
              ⟨r.publicKey, r.signature, sendingAccount, amt,
               decodeAccount r.rewardAccount, wasLockingChainSend, claimID, optDst⟩
          else .err "No such transaction"
        | none => .err "No such transaction"
    | _, _, _, _, _, _ => .ub

/-- The missing-or-invalid-field computation of doWitnessAccountCreate
(RPCHandler.cpp lines 191-207).  The source checks bridge, sending_amount,
reward_amount, door, sending_account, reward_account and destination — it
never checks create_count even though the handler parses and dereferences
it. -/
def accountCreateMissingField (req : JVal) : String :=
  if (optFromJsonBridge req "bridge").isNone then "bridge"
  else if (optFromJsonAmount req "sending_amount").isNone then "sending_amount"
  else if (optFromJsonAmount req "reward_amount").isNone then "reward_amount"
  else if (optFromJsonAccount req "door").isNone then "door"
  else if (optFromJsonAccount req "sending_account").isNone then "sending_account"
  else if (optFromJsonAccount req "reward_account").isNone then "reward_account"
  else if (optFromJsonAccount req "destination").isNone then "destination"
  else ""

/-- The full-key SELECT filter of doWitnessAccountCreate (RPCHandler.cpp
lines 279-289): CreateCount, Success = 1, DeliveredAmt, RewardAmt, Bridge,
SendingAccount and OtherChainAccount. -/
def createRowMatches (createCount : Nat)
    (amtBlob rewardAmtBlob bridgeBlob saBlob ocaBlob : Blob)
    (r : CreateRow) : Bool :=
  r.createCount == createCount && r.success && r.deliveredAmt == amtBlob &&
  r.rewardAmt == rewardAmtBlob && r.bridge == bridgeBlob &&
  r.sendingAccount == saBlob && r.otherChainAccount == ocaBlob

/-- doWitnessAccountCreate (RPCHandler.cpp lines 176-329).  After the
missing-field check (which omits create_count) the handler binds a reference
to *optCreateCount (line 222); when create_count failed to parse that
dereference of an empty optional is undefined behavior, modelled by the ub
result. -/
def doWitnessAccountCreate (db : WitnessDB) (req : JVal) : RpcResult :=
  let optBridge := optFromJsonBridge req "bridge"
  let optAmt := optFromJsonAmount req "sending_amount"
  let optRewardAmt := optFromJsonAmount req "reward_amount"
  let optCreateCount := optFromJsonU64 req "create_count"
  let optDoor := optFromJsonAccount req "door"
  let optSendingAccount := optFromJsonAccount req "sending_account"
  let optRewardAccount := optFromJsonAccount req "reward_account"
  let optDst := optFromJsonAccount req "destination"
  let missing := accountCreateMissingField req
  if missing ≠ "" then .err ("Missing or invalid field: " ++ missing)
  else
    match optBridge, optAmt, optRewardAmt, optDoor,
          optSendingAccount, optRewardAccount, optDst with
    | some bridge, some amt, some rewardAmt, some door,
      some sendingAccount, some _rewardAccount, some dst =>
      match optCreateCount with
      | none => .ub
      | some createCount =>
        let wasLockingChainSend : Bool := door == bridge.lockingChainDoor
        if !wasLockingChainSend && door != bridge.issuingChainDoor then
          .err "Specified door account does not match any sidechain door account."
        else
          let table := if wasLockingChainSend then db.createAccountLocking
                       else db.createAccountIssuing
          let amtBlob := encodeAmount amt
          let rewardAmtBlob := encodeAmount rewardAmt
          let bridgeBlob := encodeBridge bridge
          let saBlob := encodeAccount sendingAccount
          let ocaBlob := encodeAccount dst
          match table.find?
              (createRowMatches createCount amtBlob rewardAmtBlob bridgeBlob saBlob ocaBlob) with
          | some r =>
            if r.signature ≠ [] ∧ r.publicKey ≠ [] ∧ r.rewardAccount ≠ [] then
              .createBatch bridge
                ⟨r.publicKey, r.signature, sendingAccount, amt, rewardAmt,
                 decodeAccount r.rewardAccount, wasLockingChainSend, createCount, dst⟩
            else .err "No such transaction"
          | none => .err "No such transaction"
    | _, _, _, _, _, _, _ => .ub

/-! ## The request/response callback map (ChainListener::send and onMessage) -/

/-- The callback-map state of a ChainListener: the callbacks_ map keyed by
request id (std::unordered_map — at most one entry per key, emplace keeps an
existing entry) and the monotonically increasing request-id counter of the
underlying WebsocketClient.  Callbacks are modelled by opaque tokens. -/
structure ListenerState where
  nextId : Nat
  callbacks : Nat → Option Nat

/-- std::unordered_map::emplace: inserts only when the key is absent. -/
def emplaceCb (m : Nat → Option Nat) (k cb : Nat) : Nat → Option Nat :=
  fun n => if n = k then some ((m k).getD cb) else m n

/-- std::unordered_map::erase of one key. -/
def eraseCb (m : Nat → Option Nat) (k : Nat) : Nat → Option Nat :=
  fun n => if n = k then none else m n

/-- ChainListener::send with a callback (ChainListener.cpp lines 110-125):
the transport assigns the next request id and the callback is registered
under it. -/
def sendWithCb (st : ListenerState) (cb : Nat) : ListenerState :=
  { nextId := st.nextId + 1, callbacks := emplaceCb st.callbacks st.nextId cb }

/-- How ChainListener::onMessage routed one message. -/
inductive Routed where
  | invoked : Nat → Nat → Routed
  | toProcess : Routed
deriving DecidableEq, Repr

/-- ChainListener::onMessage (ChainListener.cpp lines 149-181): when the
message carries an integral id registered in the callbacks map, the entry is
erased and the callback is invoked with the result; otherwise the message is
handed to processMessage.  An asUInt failure on the id would throw before the
map is consulted, modelled by the error case. -/
def onMessageStep (st : ListenerState) (msg : JVal) :
    Except Unit (ListenerState × Routed) :=
  if msg.member "id" && (msg.get "id").isIntegral then
    match asUIntT (msg.get "id") with
    | none => .error ()
    | some i =>
      match st.callbacks i with
      | some cb => .ok ({ st with callbacks := eraseCb st.callbacks i }, .invoked i cb)
      | none => .ok (st, .toProcess)
  else .ok (st, .toProcess)

/-- One action against a listener: register a callback via send, or receive
one inbound message. -/
inductive LAct where
  | send : Nat → LAct
  | recv : JVal → LAct

/-- One step of the listener's callback state machine, also reporting which
(id, callback) pair, if any, was invoked.  An exception thrown while reading
the id escapes before the map is touched, leaving the state unchanged. -/
def lstepT (st : ListenerState) (a : LAct) : ListenerState × Option (Nat × Nat) :=
  match a with
  | .send cb => (sendWithCb st cb, none)
  | .recv msg =>
    match onMessageStep st msg with
    | .ok (st2, .invoked i cb) => (st2, some (i, cb))
    | .ok (st2, .toProcess) => (st2, none)
    | .error _ => (st, none)

/-- Run a list of actions, collecting every (id, callback) invocation. -/
def runTrace : ListenerState → List LAct → ListenerState × List (Nat × Nat)
  | st, [] => (st, [])
  | st, a :: as =>
    let p := lstepT st a
    let q := runTrace p.1 as
    (q.1, (match p.2 with | some x => [x] | none => []) ++ q.2)

/-- Well-formedness of a listener state: callbacks are registered only under
already-assigned request ids. -/
def ListenerInv (st : ListenerState) : Prop :=
  ∀ i, st.nextId ≤ i → st.callbacks i = none

/-- The initial listener state: no callbacks, ids start at zero. -/
def initListener : ListenerState :=
  { nextId := 0, callbacks := fun _ => none }

/-! ## Concrete fixtures used by counterexamples and witnesses -/

/-- Locking-chain door account of the configured bridge. -/
def lockDoorAcct : String := "rMainDoor1111111111111111"

/-- Issuing-chain door account of the configured bridge. -/
def issueDoorAcct : String := "rSideDoor1111111111111111"

/-- The configured bridge of the test fixtures. -/
def cfgBridge : STXChainBridge := ⟨lockDoorAcct, "XRP", issueDoorAcct, "XRP"⟩

/-- JSON form of the configured bridge. -/
def bridgeJson : JVal := .jObj
  [("LockingChainDoor", .jStr lockDoorAcct),
   ("LockingChainIssue", .jObj [("currency", .jStr "XRP")]),
   ("IssuingChainDoor", .jStr issueDoorAcct),
   ("IssuingChainIssue", .jObj [("currency", .jStr "XRP")])]

/-- A 64-character transaction hash. -/
def txHashStr : String :=
  "ABCDEF0123456789ABCDEF0123456789ABCDEF0123456789ABCDEF0123456789"

/-- Source account fixture. -/
def aliceAcct : String := "rAlice1111111111111111111"

/-- Destination account fixture. -/
def bobAcct : String := "rBob111111111111111111111"

/-- A validated XChainCommit transaction message on the configured bridge:
meta.delivered_amount is present (value 5, matching
transaction.delivered_amount) while transaction.Amount is 100. -/
def commitMsg : JVal := .jObj
  [("validated", .jBool true),
   ("engine_result_code", .jInt 0),
   ("account_history_tx_index", .jInt 0),
   ("meta", .jObj [("delivered_amount", .jStr "5")]),
   ("type", .jStr "transaction"),
   ("ledger_index", .jUInt 42),
   ("XChainBridge", bridgeJson),
   ("transaction", .jObj
     [("TransactionType", .jStr "XChainCommit"),
      ("XChainBridge", bridgeJson),
      ("hash", .jStr txHashStr),
      ("Sequence", .jUInt 1),
      ("Account", .jStr aliceAcct),
      ("OtherChainAccount", .jStr bobAcct),
      ("XChainClaimID", .jStr "7"),
      ("delivered_amount", .jStr "5"),
      ("Amount", .jStr "100")])]

/-- The commit event the model produces for commitMsg on the mainchain
listener. -/
def commitEv : XChainCommitDetected :=
  ⟨.lockingToIssuing, aliceAcct, cfgBridge, some 100, 7, some bobAcct,
   42, txHashStr, 0, 0⟩

/-- A validated XChainClaim transaction message on the configured bridge. -/
def claimMsg : JVal := .jObj
  [("validated", .jBool true),
   ("engine_result_code", .jInt 0),
   ("account_history_tx_index", .jInt 3),
   ("meta", .jObj []),
   ("type", .jStr "transaction"),
   ("ledger_index", .jUInt 43),
   ("XChainBridge", bridgeJson),
   ("transaction", .jObj
     [("TransactionType", .jStr "XChainClaim"),
      ("XChainBridge", bridgeJson),
      ("hash", .jStr txHashStr),
      ("Sequence", .jUInt 2),
      ("Account", .jStr aliceAcct),
      ("Destination", .jStr bobAcct),
      ("XChainClaimID", .jStr "7"),
      ("Amount", .jStr "100")])]

/-- A fully well-formed validated SidechainXChainAccountCreate transaction
message on the configured bridge (createCount 3 in the metadata, wherever it
would live; SignatureReward 10): the spec scenario S4 input. -/
def createMsg : JVal := .jObj
  [("validated", .jBool true),
   ("engine_result_code", .jInt 0),
   ("account_history_tx_index", .jInt 5),
   ("meta", .jObj [("CreateCount", .jStr "3")]),
   ("type", .jStr "transaction"),
   ("ledger_index", .jUInt 44),
   ("XChainBridge", bridgeJson),
   ("transaction", .jObj
     [("TransactionType", .jStr "SidechainXChainAccountCreate"),
      ("XChainBridge", bridgeJson),
      ("hash", .jStr txHashStr),
      ("Sequence", .jUInt 3),
      ("Account", .jStr aliceAcct),
      ("Destination", .jStr bobAcct),
      ("SignatureReward", .jStr "10"),
      ("Amount", .jStr "200")])]

/-- The stored claim row fixture matching witnessReq. -/
def storedClaimRow : ClaimRow :=
  ⟨7, true, encodeAmount 100, encodeBridge cfgBridge, encodeAccount aliceAcct,
   encodeAccount bobAcct, encodeAccount issueDoorAcct, [9, 9], [8, 8]⟩

/-- A database holding exactly the stored claim row in the
locking-to-issuing table. -/
def witnessDbFixture : WitnessDB :=
  ⟨[storedClaimRow], [], [], []⟩

/-- A well-formed witness request whose key matches storedClaimRow through
the locking door. -/
def witnessReq : JVal := .jObj
  [("bridge", bridgeJson),
   ("sending_amount", .jStr "100"),
   ("claim_id", .jUInt 7),
   ("door", .jStr lockDoorAcct),
   ("sending_account", .jStr aliceAcct),
   ("reward_account", .jStr issueDoorAcct),
   ("destination", .jStr bobAcct)]

/-- A witness_account_create request in which every checked field is valid
but create_count is absent. -/
def createReqNoCount : JVal := .jObj
  [("bridge", bridgeJson),
   ("sending_amount", .jStr "200"),
   ("reward_amount", .jStr "10"),
   ("door", .jStr lockDoorAcct),
   ("sending_account", .jStr aliceAcct),
   ("reward_account", .jStr issueDoorAcct),
   ("destination", .jStr bobAcct)]

/-- A reply message carrying request id 0. -/
def idMsg : JVal := .jObj [("id", .jUInt 0), ("result", .jObj [])]

/-- A sample create-account event value (used to instantiate universal
statements; the listener never actually produces one). -/
def sampleCreateEv : XChainAccountCreateCommitDetected :=
  ⟨.lockingToIssuing, aliceAcct, cfgBridge, some 200, 10, 3, bobAcct,
   44, txHashStr, 0, 5⟩

/-- A bridge different from the one embedded in the fixture messages. -/
def otherBridge : STXChainBridge := ⟨issueDoorAcct, "XRP", lockDoorAcct, "XRP"⟩

/-- A validated, otherwise well-formed message with no meta field. -/
def noMetaMsg : JVal := .jObj
  [("validated", .jBool true),
   ("engine_result_code", .jInt 0),
   ("account_history_tx_index", .jInt 0),
   ("type", .jStr "transaction"),
   ("ledger_index", .jUInt 42),
   ("XChainBridge", bridgeJson),
   ("transaction", .jObj
     [("TransactionType", .jStr "XChainCommit"),
      ("XChainBridge", bridgeJson),
      ("hash", .jStr txHashStr),
      ("Sequence", .jUInt 1),
      ("Account", .jStr aliceAcct),
      ("OtherChainAccount", .jStr bobAcct),
      ("XChainClaimID", .jStr "7"),
      ("Amount", .jStr "100")])]

/-- An id has been consumed (or never registered) and can never be registered
again: no callback is stored under it and it is below the id counter. -/
def DeadId (st : ListenerState) (i : Nat) : Prop :=
  st.callbacks i = none ∧ i < st.nextId

/-! ## Helper lemmas -/

/-- Json::Value::asUInt returns a 32-bit value whenever it returns. -/
theorem asUIntT_lt (v : JVal) (n : Nat) (h : asUIntT v = some n) : n < 2 ^ 32 := by
  unfold asUIntT at h
  repeat' split at h
  all_goals simp_all
  all_goals omega

/-- A produced event always reaches the final switch, so the message was
classified. -/
theorem pm_txnType (im : Bool) (bridge : STXChainBridge) (msg : JVal) (e : FederatorEvent)
    (h : processMessage im bridge msg = .ok (some e)) :
    ∃ t, txnTypeOf bridge msg = some t := by
  unfold processMessage processSwitch at h
  repeat' split at h
  all_goals simp only [Except.ok.injEq, Option.some.injEq, reduceCtorEq] at h
  all_goals first
  | exact absurd h (by simp)
  | exact ⟨_, by assumption⟩

/-- The listener never produces an account-create event (the createCount
extraction is unimplemented). -/
theorem pm_no_accountCreate (im : Bool) (bridge : STXChainBridge) (msg : JVal) (e : FederatorEvent)
    (h : processMessage im bridge msg = .ok (some e)) :
    ∀ ev, e ≠ FederatorEvent.accountCreate ev := by
  unfold processMessage processSwitch at h
  repeat' split at h
  all_goals simp only [Except.ok.injEq, Option.some.injEq, reduceCtorEq] at h
  all_goals first
  | exact absurd h (by simp)
  | (subst h; simp_all)

/-- Every produced event carries the deliveredAmt computed by
deliveredAmtOf. -/
theorem pm_deliveredAmt (im : Bool) (bridge : STXChainBridge) (msg : JVal) (e : FederatorEvent)
    (h : processMessage im bridge msg = .ok (some e)) :
    ∃ amt, deliveredAmtOf msg = .ok amt ∧ e.deliveredAmtField = some amt := by
  unfold processMessage processSwitch at h
  repeat' split at h
  all_goals simp only [Except.ok.injEq, Option.some.injEq, reduceCtorEq] at h
  all_goals first
  | exact absurd h (by simp)
  | (subst h; exact ⟨_, by assumption, by simp [FederatorEvent.deliveredAmtField]⟩)

/-- A claim-classified message can only produce a transfer-result event. -/
theorem pm_claim_shape (im : Bool) (bridge : STXChainBridge) (msg : JVal) (e : FederatorEvent)
    (ht : txnTypeOf bridge msg = some TxnType.xChainClaim)
    (h : processMessage im bridge msg = .ok (some e)) :
    ∃ ev, e = FederatorEvent.transferResult ev := by
  unfold processMessage processSwitch at h
  repeat' split at h
  all_goals simp only [Except.ok.injEq, Option.some.injEq, reduceCtorEq] at h
  all_goals first
  | exact absurd h (by simp)
  | (subst h; simp_all)

/-- Classification requires the embedded bridge to equal the configured
bridge. -/
theorem txnTypeOf_some_bridge (bridge : STXChainBridge) (msg : JVal) (t : TxnType)
    (h : txnTypeOf bridge msg = some t) : txnBridgeOf msg = some bridge := by
  unfold txnTypeOf at h
  repeat' split at h
  all_goals simp_all

/-! ## Claims -/

/-- C1 counterexample: on commitMsg the metadata's delivered_amount is
present and parses to 5, yet the produced event's deliveredAmt is 100, the
value of transaction.Amount — the override, not the meta field, wins. -/
theorem c1_counterexample :
    processMessage true cfgBridge commitMsg =
      Except.ok (some (FederatorEvent.commit commitEv)) ∧
    (commitMsg.get "meta").member "delivered_amount" = true ∧
    amountFromJson ((commitMsg.get "meta").get "delivered_amount") = some 5 ∧
    commitEv.deliveredAmt = some 100 :=
  ⟨by decide, by decide, by decide, by decide⟩

/-- C1 amended: whenever an event is produced, transaction.Amount (when
present and parsed) overrides the deliveredAmt; the value gated on
meta.delivered_amount (and parsed from transaction.delivered_amount) is used
only when transaction.Amount is absent. -/
theorem c1_amended (im : Bool) (bridge : STXChainBridge) (msg : JVal) (e : FederatorEvent)
    (h : processMessage im bridge msg = Except.ok (some e)) :
    (∀ a : Int, (msg.get "transaction").member "Amount" = true →
      amountFromJson ((msg.get "transaction").get "Amount") = some a →
      e.deliveredAmtField = some (some a)) ∧
    ((msg.get "transaction").member "Amount" = false →
      (msg.get "meta").member "delivered_amount" = true →
      ∀ b : Int, amountFromJson ((msg.get "transaction").get "delivered_amount") = some b →
      e.deliveredAmtField = some (some b)) := by
  obtain ⟨amt, hda, hf⟩ := pm_deliveredAmt im bridge msg e h
  unfold deliveredAmtOf at hda
  constructor
  · intro a hm ha
    simp only [hm, ha, if_true] at hda
    split at hda
    · exact absurd hda (by simp)
    · obtain rfl : (some a : Option Int) = amt := Except.ok.inj hda
      exact hf
  · intro hm hmeta b hb
    simp only [hm, hmeta, hb, if_true, Bool.false_eq_true, if_false] at hda
    obtain rfl : (some b : Option Int) = amt := Except.ok.inj hda
    exact hf

/-- C1 amended, witness at commitMsg. -/
theorem c1_amended_witness :
    (FederatorEvent.commit commitEv).deliveredAmtField = some (some 100) :=
  (c1_amended true cfgBridge commitMsg (FederatorEvent.commit commitEv)
    (by decide)).1 100 (by decide) (by decide)

/-- C2: a fully well-formed validated SidechainXChainAccountCreate message
(scenario S4) is classified but dropped — the source's createCount is a
never-assigned empty optional — and no reachable input ever yields an
XChainAccountCreateCommitDetected event. -/
theorem c2_create_always_dropped :
    (txnTypeOf cfgBridge createMsg = some TxnType.xChainCreateAccount ∧
     txnHashOf createMsg = some txHashStr ∧
     txnSeqOf createMsg = some 3 ∧
     lgrSeqOf createMsg = some 44 ∧
     srcOf createMsg = some aliceAcct ∧
     dstOf TxnType.xChainCreateAccount createMsg = some bobAcct ∧
     rewardAmtOf createMsg = Except.ok (some 10) ∧
     processMessage true cfgBridge createMsg = Except.ok none) ∧
    (∀ (im : Bool) (b : STXChainBridge) (msg : JVal) (ev : XChainAccountCreateCommitDetected),
      processMessage im b msg ≠ Except.ok (some (FederatorEvent.accountCreate ev))) := by
  refine ⟨by decide, ?_⟩
  intro im b msg ev hcontra
  exact pm_no_accountCreate im b msg _ hcontra ev rfl

/-- C2 witness. -/
theorem c2_create_always_dropped_witness :
    processMessage true cfgBridge commitMsg ≠
      Except.ok (some (FederatorEvent.accountCreate sampleCreateEv)) :=
  c2_create_always_dropped.2 true cfgBridge commitMsg sampleCreateEv

/-- C4: the direction table.  Commits carry the observing chain's outgoing
direction, claims (transfer results) the inverse — the original transfer's
direction — and account-create events (were any produced) the observing
chain's outgoing direction. -/
theorem c4_direction_table (im : Bool) (bridge : STXChainBridge) (msg : JVal) (e : FederatorEvent)
    (h : processMessage im bridge msg = Except.ok (some e)) :
    (∀ ev, e = FederatorEvent.commit ev →
      ev.dir = (if im then Dir.lockingToIssuing else Dir.issuingToLocking)) ∧
    (∀ ev, e = FederatorEvent.transferResult ev →
      ev.dir = (if im then Dir.issuingToLocking else Dir.lockingToIssuing)) ∧
    (∀ ev, e = FederatorEvent.accountCreate ev →
      ev.dir = (if im then Dir.lockingToIssuing else Dir.issuingToLocking)) := by
  unfold processMessage processSwitch at h
  repeat' split at h
  all_goals simp only [Except.ok.injEq, Option.some.injEq, reduceCtorEq] at h
  all_goals first
  | exact absurd h (by simp)
  | (subst h; simp_all)

/-- C4 witness: the commit fixture on the mainchain listener is tagged
lockingToIssuing. -/
theorem c4_direction_table_witness : commitEv.dir = Dir.lockingToIssuing := by
  have h := (c4_direction_table true cfgBridge commitMsg
    (FederatorEvent.commit commitEv) (by decide)).1 commitEv rfl
  simpa using h

/-- C7: when the embedded bridge is absent, unparseable or differs from the
configured bridge, no event is ever pushed. -/
theorem c7_bridge_mismatch_ignored (im : Bool) (bridge : STXChainBridge) (msg : JVal)
    (h : txnBridgeOf msg ≠ some bridge) :
    ∀ e, processMessage im bridge msg ≠ Except.ok (some e) := by
  intro e hcontra
  obtain ⟨t, ht⟩ := pm_txnType im bridge msg e hcontra
  exact h (txnTypeOf_some_bridge bridge msg t ht)

/-- C7 witness: the commit fixture is ignored by a listener configured with
a different bridge. -/
theorem c7_bridge_mismatch_ignored_witness :
    processMessage true otherBridge commitMsg ≠
      Except.ok (some (FederatorEvent.commit commitEv)) :=
  c7_bridge_mismatch_ignored true otherBridge commitMsg (by decide)
    (FederatorEvent.commit commitEv)

/-- The guard behavior underlying C6: with validated absent or false, or one
of the required members missing, processMessage either returns ok none or
propagates the asBool exception of a non-convertible validated value. -/
theorem pm_guard_fail (im : Bool) (bridge : STXChainBridge) (msg : JVal)
    (h : msg.member "validated" = false ∨
         asBoolE (msg.get "validated") = Except.ok false ∨
         msg.member "engine_result_code" = false ∨
         msg.member "account_history_tx_index" = false ∨
         msg.member "meta" = false) :
    processMessage im bridge msg = Except.ok none ∨
    (asBoolE (msg.get "validated") = Except.error () ∧
     processMessage im bridge msg = Except.error ()) := by
  by_cases hm : msg.member "validated" = false
  · left; simp [processMessage, hm]
  · have hm2 : msg.member "validated" = true := by
      cases hb : msg.member "validated" <;> simp_all
    cases hab : asBoolE (msg.get "validated") with
    | error u =>
      right
      obtain rfl : u = () := rfl
      exact ⟨rfl, by simp [processMessage, hm2, hab]⟩
    | ok vb =>
      cases vb with
      | false => left; simp [processMessage, hm2, hab]
      | true =>
        rcases h with h | h | h | h | h
        · exact absurd hm2 (by simp [h])
        · rw [hab] at h; exact absurd (Except.ok.inj h) (by simp)
        · left; simp [processMessage, hm2, hab, h]
        · left; simp [processMessage, hm2, hab, h]
        · left; simp [processMessage, hm2, hab, h]

/-- C6: a message with validated absent or false, or with
engine_result_code, account_history_tx_index or meta absent, never pushes an
event; whenever the validated value does not itself throw, processMessage
simply returns after the failed guard. -/
theorem c6_invalid_ignored (im : Bool) (bridge : STXChainBridge) (msg : JVal)
    (h : msg.member "validated" = false ∨
         asBoolE (msg.get "validated") = Except.ok false ∨
         msg.member "engine_result_code" = false ∨
         msg.member "account_history_tx_index" = false ∨
         msg.member "meta" = false) :
    (∀ e, processMessage im bridge msg ≠ Except.ok (some e)) ∧
    (asBoolE (msg.get "validated") ≠ Except.error () →
      processMessage im bridge msg = Except.ok none) := by
  rcases pm_guard_fail im bridge msg h with hok | ⟨hab, herr⟩
  · exact ⟨fun e hc => by rw [hok] at hc; exact absurd (Except.ok.inj hc) (by simp),
           fun _ => hok⟩
  · exact ⟨fun e hc => by rw [herr] at hc; exact Except.noConfusion hc,
           fun hne => absurd hab hne⟩

/-- C6 witness: the no-meta fixture (scenario S5) is ignored. -/
theorem c6_invalid_ignored_witness :
    processMessage true cfgBridge noMetaMsg = Except.ok none :=
  (c6_invalid_ignored true cfgBridge noMetaMsg
    (Or.inr (Or.inr (Or.inr (Or.inr (by decide)))))).2 (by decide)

/-- C8: a claim-classified message only ever produces a transfer-result
event (never a commit or account-create event, hence never an attestation
row), and when every extraction succeeds it does produce the
XChainTransferResult with exactly the extracted fields. -/
theorem c8_claim_transfer_result (im : Bool) (bridge : STXChainBridge) (msg : JVal) :
    (txnTypeOf bridge msg = some TxnType.xChainClaim →
      ∀ e, processMessage im bridge msg = Except.ok (some e) →
        ∃ ev, e = FederatorEvent.transferResult ev) ∧
    (∀ (ter idx : Int) (hh : String) (sq lg : Nat) (amt : Option Int) (sa : String)
       (c : Nat) (d : String),
      msg.member "validated" = true →
      asBoolE (msg.get "validated") = Except.ok true →
      msg.member "engine_result_code" = true →
      asIntE (msg.get "engine_result_code") = Except.ok ter →
      msg.member "account_history_tx_index" = true →
      asIntE (msg.get "account_history_tx_index") = Except.ok idx →
      msg.member "meta" = true →
      txnTypeOf bridge msg = some TxnType.xChainClaim →
      txnHashOf msg = some hh →
      txnSeqOf msg = some sq →
      lgrSeqOf msg = some lg →
      deliveredAmtOf msg = Except.ok amt →
      srcOf msg = some sa →
      getOptionalU64 (msg.get "transaction") "XChainClaimID" = some c →
      dstOf TxnType.xChainClaim msg = some d →
      processMessage im bridge msg = Except.ok (some (FederatorEvent.transferResult
        ⟨(if im then Dir.issuingToLocking else Dir.lockingToIssuing),
         d, amt, c, lg, hh, ter, idx⟩))) := by
  constructor
  · intro ht e he
    exact pm_claim_shape im bridge msg e ht he
  · intro ter idx hh sq lg amt sa c d h1 h2 h3 h4 h5 h6 h7 h8 h9 h10 h11 h12 h13 h14 h15
    unfold processMessage processSwitch
    simp [h1, h2, h3, h4, h5, h6, h7, h8, h9, h10, h11, h12, h13, h14, h15]

/-- C8 witness: the claim fixture (scenario S3) produces the expected
transfer-result event. -/
theorem c8_claim_transfer_result_witness :
    processMessage true cfgBridge claimMsg = Except.ok (some (FederatorEvent.transferResult
      ⟨Dir.issuingToLocking, bobAcct, some 100, 7, 43, txHashStr, 0, 3⟩)) := by
  have h := (c8_claim_transfer_result true cfgBridge claimMsg).2
    0 3 txHashStr 2 43 (some 100) aliceAcct 7 bobAcct
    (by decide) (by decide) (by decide) (by decide) (by decide) (by decide)
    (by decide) (by decide) (by decide) (by decide) (by decide) (by decide)
    (by decide) (by decide) (by decide)
  simpa using h

/-- C10: fromJson of a uint64 validates string values as full hex (throwing
otherwise), then discards the hex value and returns v.asUInt() of the string;
the final range check against the uint64 maximum is unreachable; "ff" is
answered with the asUInt exception, never with 255. -/
theorem c10_from_json_u64 :
    (∀ (jv : JVal) (key s : String), jv.get key = JVal.jStr s →
      (hexParseU64 s = none → fromJsonU64 jv key = Except.error U64Err.notHexParsable) ∧
      (∀ h : Nat, hexParseU64 s = some h →
        fromJsonU64 jv key =
          (match asUIntT (JVal.jStr s) with
           | none => Except.error U64Err.asUIntThrow
           | some u => Except.ok u))) ∧
    (∀ (jv : JVal) (key : String), fromJsonU64 jv key ≠ Except.error U64Err.tooLarge) ∧
    fromJsonU64 (JVal.jObj [("claim_id", JVal.jStr "ff")]) "claim_id" =
      Except.error U64Err.asUIntThrow := by
  refine ⟨?_, ?_, by decide⟩
  · intro jv key s hget
    constructor
    · intro hhex
      simp [fromJsonU64, hget, hhex, JVal.isNull]
    · intro hv hh
      simp only [fromJsonU64, hget, hh, JVal.isNull, Bool.false_eq_true, if_false]
      cases hu : asUIntT (JVal.jStr s) with
      | none => simp
      | some u =>
        have hlt := asUIntT_lt _ _ hu
        simp only []
        rw [if_neg (by omega)]
  · intro jv key hcontra
    simp only [fromJsonU64] at hcontra
    repeat' split at hcontra
    all_goals try simp_all
    · rename_i heq
      repeat' split at heq
      all_goals simp_all
    · rename_i heq hgt
      have hlt := asUIntT_lt _ _ heq
      omega

/-- C10 witness: a decimal-looking hex string is returned as its decimal
asUInt value, not its hex value. -/
theorem c10_from_json_u64_witness :
    fromJsonU64 (JVal.jObj [("k", JVal.jStr "10")]) "k" = Except.ok 10 := by
  have h := (c10_from_json_u64.1 (JVal.jObj [("k", JVal.jStr "10")]) "k" "10"
    (by rfl)).2 16 (by decide)
  simpa using h

/-- Inversion of an invoking onMessage step: the message carries a
registered integral id, and the new state is the old one with that entry
erased (the erase happens before the callback is invoked). -/
theorem onMessageStep_invoked (st : ListenerState) (msg : JVal)
    (st2 : ListenerState) (i cb : Nat)
    (h : onMessageStep st msg = .ok (st2, .invoked i cb)) :
    (msg.member "id" && (msg.get "id").isIntegral) = true ∧
    asUIntT (msg.get "id") = some i ∧
    st.callbacks i = some cb ∧
    st2 = { st with callbacks := eraseCb st.callbacks i } := by
  unfold onMessageStep at h
  repeat' split at h
  all_goals simp_all
  obtain ⟨h1, rfl, rfl⟩ := h
  exact h1.symm

/-- A non-invoking onMessage step leaves the state unchanged. -/
theorem onMessageStep_toProcess (st : ListenerState) (msg : JVal)
    (st2 : ListenerState)
    (h : onMessageStep st msg = .ok (st2, .toProcess)) : st2 = st := by
  unfold onMessageStep at h
  repeat' split at h
  all_goals simp_all

/-- Listener steps preserve the id-counter invariant. -/
theorem inv_lstep (st : ListenerState) (a : LAct) (h : ListenerInv st) :
    ListenerInv (lstepT st a).1 := by
  cases a with
  | send cb =>
    intro i hi
    simp only [lstepT, sendWithCb] at hi ⊢
    simp only [emplaceCb]
    rw [if_neg (by omega)]
    exact h i (by omega)
  | recv msg =>
    intro i hi
    cases hstep : onMessageStep st msg with
    | error e =>
      simp only [lstepT, hstep] at hi ⊢
      exact h i hi
    | ok pr =>
      obtain ⟨st3, r⟩ := pr
      cases r with
      | toProcess =>
        obtain rfl := onMessageStep_toProcess st msg st3 hstep
        simp only [lstepT, hstep] at hi ⊢
        exact h i hi
      | invoked j cb =>
        obtain ⟨_, _, hcj, rfl⟩ := onMessageStep_invoked st msg st3 j cb hstep
        simp only [lstepT, hstep] at hi ⊢
        simp only [eraseCb]
        split
        · rfl
        · exact h i hi

/-- A consumed (or never assigned) id stays dead across any step, and no
step invokes a callback under it. -/
theorem dead_lstep (st : ListenerState) (a : LAct) (i : Nat) (hd : DeadId st i) :
    DeadId (lstepT st a).1 i ∧ ∀ cb, (lstepT st a).2 ≠ some (i, cb) := by
  obtain ⟨hnone, hlt⟩ := hd
  cases a with
  | send cb =>
    refine ⟨⟨?_, ?_⟩, ?_⟩
    · simp only [lstepT, sendWithCb, emplaceCb]
      rw [if_neg (by omega)]
      exact hnone
    · simp only [lstepT, sendWithCb]
      omega
    · intro cb2
      simp [lstepT, sendWithCb]
  | recv msg =>
    cases hstep : onMessageStep st msg with
    | error e =>
      refine ⟨⟨?_, ?_⟩, ?_⟩ <;> simp only [lstepT, hstep]
      · exact hnone
      · exact hlt
      · intro cb2; simp
    | ok pr =>
      obtain ⟨st3, r⟩ := pr
      cases r with
      | toProcess =>
        obtain rfl := onMessageStep_toProcess st msg st3 hstep
        refine ⟨⟨?_, ?_⟩, ?_⟩ <;> simp only [lstepT, hstep]
        · exact hnone
        · exact hlt
        · intro cb2; simp
      | invoked j cb =>
        obtain ⟨_, _, hcj, rfl⟩ := onMessageStep_invoked st msg st3 j cb hstep
        have hji : j ≠ i := by
          intro hji; rw [hji, hnone] at hcj; exact Option.noConfusion hcj
        refine ⟨⟨?_, ?_⟩, ?_⟩ <;> simp only [lstepT, hstep]
        · simp only [eraseCb]
          split
          · rfl
          · exact hnone
        · exact hlt
        · intro cb2
          simp only [ne_eq, Option.some.injEq, Prod.mk.injEq, not_and]
          intro hji2
          exact absurd hji2 hji

/-- Once an id is dead, no later invocation under it ever appears. -/
theorem dead_run (acts : List LAct) (st : ListenerState) (i : Nat) (hd : DeadId st i) :
    (runTrace st acts).2.filter (fun p => p.1 == i) = [] := by
  induction acts generalizing st with
  | nil => simp [runTrace]
  | cons a as ih =>
    obtain ⟨hd2, hninv⟩ := dead_lstep st a i hd
    simp only [runTrace]
    rw [List.filter_append]
    rw [ih (lstepT st a).1 hd2]
    cases hp : (lstepT st a).2 with
    | none => simp
    | some p =>
      obtain ⟨j, cb⟩ := p
      have : j ≠ i := by
        intro hji
        exact hninv cb (by rw [hp, hji])
      simp [this]

/-- A callback invocation under an id kills that id (given the counter
invariant). -/
theorem lstep_invoked_dead (st : ListenerState) (a : LAct) (i cb : Nat)
    (hinv : ListenerInv st) (h : (lstepT st a).2 = some (i, cb)) :
    DeadId (lstepT st a).1 i := by
  cases a with
  | send cb2 => simp [lstepT, sendWithCb] at h
  | recv msg =>
    cases hstep : onMessageStep st msg with
    | error e => simp [lstepT, hstep] at h
    | ok pr =>
      obtain ⟨st3, r⟩ := pr
      cases r with
      | toProcess => simp [lstepT, hstep] at h
      | invoked j cb3 =>
        simp only [lstepT, hstep, Option.some.injEq, Prod.mk.injEq] at h
        obtain ⟨hj, hcb⟩ := h
        obtain ⟨_, _, hcj, hst⟩ := onMessageStep_invoked st msg st3 j cb3 hstep
        constructor
        · simp only [lstepT, hstep]
          rw [hst]
          simp [eraseCb, hj]
        · simp only [lstepT, hstep]
          rw [hst]
          show i < st.nextId
          by_contra hge
          rw [hj] at hcj
          rw [hinv i (by omega)] at hcj
          exact Option.noConfusion hcj

/-- C9: onMessage erases a matched callback entry before invoking it, so the
same id immediately routes to processMessage afterwards; and along any run
from a well-formed state, each request id's callback is invoked at most
once (the transport's ids increase monotonically, so a consumed id is never
re-registered). -/
theorem c9_callback_at_most_once :
    (∀ (st : ListenerState) (msg : JVal) (st2 : ListenerState) (i cb : Nat),
      onMessageStep st msg = .ok (st2, .invoked i cb) →
        st2.callbacks i = none ∧ onMessageStep st2 msg = .ok (st2, .toProcess)) ∧
    (∀ (acts : List LAct) (st : ListenerState) (i : Nat), ListenerInv st →
      ((runTrace st acts).2.filter (fun p => p.1 == i)).length ≤ 1) := by
  constructor
  · intro st msg st2 i cb h
    obtain ⟨hm, hid, hcb, hst⟩ := onMessageStep_invoked st msg st2 i cb h
    have hnone : st2.callbacks i = none := by
      rw [hst]
      simp [eraseCb]
    refine ⟨hnone, ?_⟩
    unfold onMessageStep
    rw [hm]
    simp only [if_true]
    rw [hid]
    simp [hnone]
  · intro acts
    induction acts with
    | nil =>
      intro st i hinv
      simp [runTrace]
    | cons a as ih =>
      intro st i hinv
      simp only [runTrace]
      rw [List.filter_append]
      cases hp : (lstepT st a).2 with
      | none =>
        simp only [List.filter_nil, List.nil_append]
        exact ih (lstepT st a).1 i (inv_lstep st a hinv)
      | some p =>
        obtain ⟨j, cb⟩ := p
        by_cases hj : j = i
        · subst hj
          have hdead : DeadId (lstepT st a).1 j :=
            lstep_invoked_dead st a j cb hinv hp
          rw [dead_run as (lstepT st a).1 j hdead]
          simp
        · have : ((([(j, cb)]).filter (fun p => p.1 == i))) = [] := by
            simp [hj]
          rw [this]
          simp only [List.nil_append]
          exact ih (lstepT st a).1 i (inv_lstep st a hinv)

/-- C9 witness: a send followed by two replies with the registered id
invokes the callback exactly once. -/
theorem c9_callback_at_most_once_witness :
    ((runTrace initListener
        [LAct.send 5, LAct.recv idMsg, LAct.recv idMsg]).2.filter
      (fun p => p.1 == 0)).length ≤ 1 :=
  c9_callback_at_most_once.2 [LAct.send 5, LAct.recv idMsg, LAct.recv idMsg]
    initListener 0 (fun _ _ => rfl)

/-- Left cancellation of string append. -/
theorem strAppendCancel (s a b : String) (h : s ++ a = s ++ b) : a = b := by
  cases s with
  | mk sd =>
    cases a with
    | mk ad =>
      cases b with
      | mk bd =>
        have hd : sd ++ ad = sd ++ bd := congrArg String.data h
        have := List.append_cancel_left hd
        rw [this]

/-- The account-create missing-field computation never names create_count. -/
theorem acmf_ne_create_count (req : JVal) :
    accountCreateMissingField req ≠ "create_count" := by
  unfold accountCreateMissingField
  repeat' split
  all_goals decide

/-- C3: the witness_account_create validation list omits create_count: a
request with every checked field valid but create_count absent passes the
check (empty missing-field result), parses create_count to nullopt and then
dereferences the empty optional (undefined behavior) instead of answering
the documented error; no request is ever answered with
Missing or invalid field: create_count. -/
theorem c3_create_count_unchecked :
    (accountCreateMissingField createReqNoCount = "" ∧
     optFromJsonU64 createReqNoCount "create_count" = none ∧
     doWitnessAccountCreate witnessDbFixture createReqNoCount = RpcResult.ub) ∧
    (∀ (db : WitnessDB) (req : JVal),
      doWitnessAccountCreate db req ≠
        RpcResult.err "Missing or invalid field: create_count") := by
  refine ⟨⟨by decide, by decide, by decide⟩, ?_⟩
  intro db req hcontra
  simp only [doWitnessAccountCreate] at hcontra
  repeat' split at hcontra
  all_goals try simp_all
  · have h4 : "Missing or invalid field: " ++ accountCreateMissingField req =
        "Missing or invalid field: " ++ "create_count" :=
      hcontra.trans (by decide)
    exact acmf_ne_create_count req (strAppendCancel _ _ _ h4)

/-- C3 witness for the universal part. -/
theorem c3_create_count_unchecked_witness :
    doWitnessAccountCreate witnessDbFixture createReqNoCount ≠
      RpcResult.err "Missing or invalid field: create_count" :=
  c3_create_count_unchecked.2 witnessDbFixture createReqNoCount

/-- C5: for a well-formed witness request whose door is one of the bridge's
doors (selecting the direction table), and a store whose rows carry
non-empty signature material, doWitness answers No such transaction exactly
when no row with Success = 1 matches the full key
(ClaimID, DeliveredAmt, Bridge, SendingAccount, OtherChainAccount); when a
row matches, the reconstructed single-claim attestation batch is returned. -/
theorem c5_no_such_transaction_iff
    (db : WitnessDB) (req : JVal) (bridge : STXChainBridge) (amt : Int) (claimID : Nat)
    (door sendingAccount rewardAccount : String) (optDst : Option String)
    (hb : optFromJsonBridge req "bridge" = some bridge)
    (ha : optFromJsonAmount req "sending_amount" = some amt)
    (hc : optFromJsonU64 req "claim_id" = some claimID)
    (hd : optFromJsonAccount req "door" = some door)
    (hs : optFromJsonAccount req "sending_account" = some sendingAccount)
    (hr : optFromJsonAccount req "reward_account" = some rewardAccount)
    (hdst : optFromJsonAccount req "destination" = optDst)
    (hdoor : door = bridge.lockingChainDoor ∨ door = bridge.issuingChainDoor)
    (hwf : ∀ r ∈ (if door == bridge.lockingChainDoor then db.lockingToIssuingClaim
                  else db.issuingToLockingClaim),
      r.signature ≠ [] ∧ r.publicKey ≠ [] ∧ r.rewardAccount ≠ []) :
    (doWitness db req = RpcResult.err "No such transaction" ↔
      ∀ r ∈ (if door == bridge.lockingChainDoor then db.lockingToIssuingClaim
             else db.issuingToLockingClaim),
        claimRowMatches claimID (encodeAmount amt) (encodeBridge bridge)
          (encodeAccount sendingAccount) (dstBlob optDst) r = false) ∧
    (∀ r, (if door == bridge.lockingChainDoor then db.lockingToIssuingClaim
           else db.issuingToLockingClaim).find?
        (claimRowMatches claimID (encodeAmount amt) (encodeBridge bridge)
          (encodeAccount sendingAccount) (dstBlob optDst)) = some r →
      doWitness db req = RpcResult.claimBatch bridge
        ⟨r.publicKey, r.signature, sendingAccount, amt, decodeAccount r.rewardAccount,
         door == bridge.lockingChainDoor, claimID, optDst⟩) := by
  have hmiss : witnessMissingField req = "" := by
    simp [witnessMissingField, hb, ha, hc, hd, hs, hr]
  have hdoorpass :
      (!(door == bridge.lockingChainDoor) && door != bridge.issuingChainDoor) = false := by
    rcases hdoor with h | h <;> simp [h]
  have hdw : doWitness db req =
      match (if door == bridge.lockingChainDoor then db.lockingToIssuingClaim
             else db.issuingToLockingClaim).find?
          (claimRowMatches claimID (encodeAmount amt) (encodeBridge bridge)
            (encodeAccount sendingAccount) (dstBlob optDst)) with
      | some r =>
        if r.signature ≠ [] ∧ r.publicKey ≠ [] ∧ r.rewardAccount ≠ [] then
          RpcResult.claimBatch bridge
            ⟨r.publicKey, r.signature, sendingAccount, amt,
             decodeAccount r.rewardAccount, door == bridge.lockingChainDoor,
             claimID, optDst⟩
        else RpcResult.err "No such transaction"
      | none => RpcResult.err "No such transaction" := by
    unfold doWitness
    rw [hmiss]
    simp only [hb, ha, hc, hd, hs, hr, hdst, hdoorpass, ne_eq, not_true_eq_false,
      Bool.false_eq_true, if_false]
  cases hfind : (if door == bridge.lockingChainDoor then db.lockingToIssuingClaim
                 else db.issuingToLockingClaim).find?
      (claimRowMatches claimID (encodeAmount amt) (encodeBridge bridge)
        (encodeAccount sendingAccount) (dstBlob optDst)) with
  | none =>
    rw [hfind] at hdw
    simp only [] at hdw
    constructor
    · rw [hdw]
      constructor
      · intro _ r hrmem
        have := List.find?_eq_none.mp hfind r hrmem
        simpa using this
      · intro _; rfl
    · intro r2 hfound
      exact Option.noConfusion hfound
  | some r =>
    have hrmem := List.mem_of_find?_eq_some hfind
    have hrp := List.find?_some hfind
    have hne := hwf r hrmem
    rw [hfind] at hdw
    simp only [] at hdw
    rw [if_pos hne] at hdw
    constructor
    · rw [hdw]
      constructor
      · intro hcb
        exact absurd hcb (by simp)
      · intro hall
        have := hall r hrmem
        rw [hrp] at this
        exact absurd this (by simp)
    · intro r2 hfound
      obtain rfl := Option.some.inj hfound
      exact hdw

/-- C5 witness: the fixture request reconstructs the stored row's
single-claim batch through the locking door. -/
theorem c5_no_such_transaction_iff_witness :
    doWitness witnessDbFixture witnessReq = RpcResult.claimBatch cfgBridge
      ⟨[9, 9], [8, 8], aliceAcct, 100, issueDoorAcct, true, 7, some bobAcct⟩ :=
  (c5_no_such_transaction_iff witnessDbFixture witnessReq cfgBridge 100 7
    lockDoorAcct aliceAcct issueDoorAcct (some bobAcct)
    (by decide) (by decide) (by decide) (by decide) (by decide) (by decide)
    (by decide) (Or.inl (by decide)) (by decide)).2 storedClaimRow (by decide)
